import Mathlib

/-!
Shallow embedding of the expo-whisper native bridge layer
(`android/src/main/cpp/whisper-jni.cpp`, the JSON-string binding, and
`android/src/main/jni/whisper_jni.cpp`, the structured-map binding).

The inference engine (whisper.h) is an external collaborator: its calls are
modelled by explicit oracle records holding the status codes and segment lists
the engine would report, and resource usage is made observable as a trace of
resource events.  Machine integers (jint, jlong, int64_t) are modelled as `Int`,
bytes as `Nat` taken mod 256, and 32-bit float samples as `Rat` (division of an
int16 by the power of two 32768 is exact in binary floating point, so `Rat`
represents the decoded sample values exactly).
-/

namespace ExpoWhisper

/-- One engine-reported segment: text span with start/end timestamps
(centiseconds, int64 in the source). -/
structure Segment where
  text : String
  t0 : Int
  t1 : Int
deriving Repr, DecidableEq

/-- Oracle for one `whisper_full` invocation: the status code the engine
returns, and the segments it reports afterwards through
`whisper_full_n_segments` / `whisper_full_get_segment_text` /`_t0` / `_t1`. -/
structure EngineRun where
  status : Int
  segments : List Segment
deriving Repr, DecidableEq

/-! Audio decoding (whisper-jni.cpp, fullTranscribe lines 60-78).
The code reads the byte array, rejects `len < 44`, then reinterprets the bytes
after the fixed 44-byte header as little-endian int16 PCM:
`pcmLen = (len - 44) / 2` (C integer division, so a trailing odd byte is
dropped), and normalizes `samples[i] = (float)pcm16[i] / 32768.0f`. -/

/-- Signed little-endian int16 from two bytes, as the C cast
`(const int16_t *)(bytes + 44)` reads it. -/
def int16OfBytes (lo hi : Nat) : Int :=
  let u := lo % 256 + 256 * (hi % 256)
  if u < 32768 then (u : Int) else (u : Int) - 65536

/-- The int16 values read pairwise from a byte list; a trailing odd byte is
dropped, matching `pcmLen = (len - 44) / 2`. -/
def pcm16Samples : List Nat → List Int
  | lo :: hi :: rest => int16OfBytes lo hi :: pcm16Samples rest
  | _ => []

/-- Normalization step `samples[i] = (float)pcm16[i] / 32768.0f`. -/
def normalizeSample (v : Int) : Rat := (v : Rat) / 32768

/-- Outcome of the inline WAV parsing in fullTranscribe. -/
inductive DecodeResult where
  | invalidWav
  | ok (samples : List Rat)
deriving Repr, DecidableEq

/-- The WAV decoding performed inside fullTranscribe: reject buffers shorter
than 44 bytes, otherwise skip the 44-byte header and convert the rest as
int16 little-endian PCM. -/
def decodeWav (bytes : List Nat) : DecodeResult :=
  if bytes.length < 44 then .invalidWav
  else .ok ((pcm16Samples (bytes.drop 44)).map normalizeSample)

/-! Engine invocation parameters (whisper_full_params), restricted to the
fields the bridge code assigns.  The `language` field is `const char *` in the
engine header; the JSON binding stores the integer result of
`whisper_lang_id(language)` into it, so the field is modelled as a sum of a
language tag and a numeric language id. -/

/-- The value stored in the params' language field: either a pointer to a
language tag string, or (in the JSON binding) the numeric id returned by
`whisper_lang_id`. -/
inductive LangField where
  | tag (s : String)
  | langId (n : Int)
deriving Repr, DecidableEq

/-- The subset of `whisper_full_params` fields assigned by the bridge code. -/
structure WhisperFullParams where
  print_realtime : Bool
  print_progress : Bool
  print_timestamps : Bool
  print_special : Bool
  translate : Bool
  n_threads : Int
  single_segment : Bool
  no_context : Bool
  audio_ctx : Int
  token_timestamps : Bool
  suppress_blank : Bool
  suppress_nst : Bool
  max_tokens : Int
  language : LangField
deriving Repr, DecidableEq

/-- Modelled from the spec: `whisper_full_default_params` belongs to the
external inference engine (its header is not part of this repository's
sources).  The spec fixes the point that matters here: the default token cap
is the unlimited sentinel 0 ("max-output-token cap (0 = unlimited)",
"maxTokens ≤ 0 means unlimited").  The remaining field defaults are the
engine's documented greedy-sampling defaults; no claim depends on them. -/
def whisper_full_default_params : WhisperFullParams where
  print_realtime := false
  print_progress := true
  print_timestamps := true
  print_special := false
  translate := false
  n_threads := 4
  single_segment := false
  no_context := false
  audio_ctx := 0
  token_timestamps := false
  suppress_blank := true
  suppress_nst := false
  max_tokens := 0
  language := .tag "en"

/-- Modelled from the spec: `whisper_lang_id`, the engine's supported-language
table lookup ("validated against the engine's supported-language table").
Returns the index of the tag in the engine's table, or -1 when the tag is not
in the table.  The table itself is engine-owned, so it is a parameter. -/
def whisper_lang_id (table : List String) (s : String) : Int :=
  if s ∈ table then (table.indexOf s : Int) else -1

/-- Parameter setup of fullTranscribe (whisper-jni.cpp lines 80-97): defaults,
progress flags off, suppression flags, `max_tokens` only when positive,
translate only when requested, and for a non-"auto" tag the assignment
`params.language = whisper_lang_id(language)` (the int id is stored into the
field, unchecked). -/
def fullTranscribeParams (table : List String) (language : String)
    (translate : Bool) (maxTokens : Int) (suppressBlank suppressNst : Bool) :
    WhisperFullParams :=
  let params := whisper_full_default_params
  let params := { params with
    print_progress := false
    print_realtime := false
    suppress_blank := suppressBlank
    suppress_nst := suppressNst }
  let params := if 0 < maxTokens then { params with max_tokens := maxTokens } else params
  let params := if translate then { params with translate := true } else params
  if language ≠ "auto" then
    { params with language := .langId (whisper_lang_id table language) }
  else params

/-- Parameter setup of nativeTranscribe (whisper_jni.cpp lines 78-100): the
language tag, when present, is stored verbatim with no table lookup. -/
def nativeTranscribeParams (language : Option String) (translate : Bool)
    (maxTokens : Int) : WhisperFullParams :=
  let params := whisper_full_default_params
  let params := { params with
    print_realtime := false
    print_progress := false
    print_timestamps := false
    print_special := false
    translate := translate
    n_threads := 4
    single_segment := false
    token_timestamps := true }
  let params := if 0 < maxTokens then { params with max_tokens := maxTokens } else params
  match language with
  | some lang => { params with language := .tag lang }
  | none => { params with language := .tag "auto" }

/-- Parameter setup of nativeStartChunkedRealtimeTranscribeWithState
(whisper_jni.cpp lines 333-356). -/
def startChunkedParams (language : Option String) (translate : Bool)
    (maxTokens : Int) (audioContext : Int) (singleSegment noContext : Bool)
    (nThreads : Int) : WhisperFullParams :=
  let params := whisper_full_default_params
  let params := { params with
    print_realtime := false
    print_progress := false
    print_timestamps := false
    print_special := false
    translate := translate
    n_threads := nThreads
    single_segment := singleSegment
    no_context := noContext
    audio_ctx := audioContext
    token_timestamps := true }
  let params := if 0 < maxTokens then { params with max_tokens := maxTokens } else params
  match language with
  | some lang => { params with language := .tag lang }
  | none => { params with language := .tag "auto" }

/-! Result assembly and the two transcribe bindings. -/

/-- The literal output of fullTranscribe's null-context path, `"\x7b\x7d"`. -/
def emptyObjectJson : String := "\x7b\x7d"

/-- The literal output of fullTranscribe's short-buffer path. -/
def invalidWavJson : String := "\x7b\"error\":\"Invalid WAV\"\x7d"

/-- The literal output of fullTranscribe's nonzero-engine-status path. -/
def transformFailedJson : String := "\x7b\"error\":\"Transformation failed\"\x7d"

/-- A JSON output the host can branch on as a failure: one of the two
error-keyed objects fullTranscribe produces. -/
def isStructuredError (s : String) : Prop :=
  s = invalidWavJson ∨ s = transformFailedJson

instance (s : String) : Decidable (isStructuredError s) := by
  unfold isStructuredError
  infer_instance

/-- The first segment loop of fullTranscribe (lines 110-114): the text field is
the fold-concatenation of the segment texts in index order. -/
def concatTexts (segs : List Segment) : String :=
  segs.foldl (fun acc s => acc ++ s.text) ""

/-- One entry of the segments array in fullTranscribe's JSON output
(lines 117-127), with the leading comma for every index after the first. -/
def segmentJson (i : Nat) (s : Segment) : String :=
  (if 0 < i then "," else "") ++ "\x7b\"text\": \"" ++ s.text ++ "\"," ++
    "\"t0\": " ++ toString s.t0 ++ "," ++ "\"t1\": " ++ toString s.t1 ++ "\x7d"

/-- The segments array body of fullTranscribe's JSON output, emitted in index
order starting at `i`. -/
def segmentsJsonFrom (i : Nat) : List Segment → String
  | [] => ""
  | s :: rest => segmentJson i s ++ segmentsJsonFrom (i + 1) rest

/-- The success output of fullTranscribe (lines 106-131). -/
def successJson (segs : List Segment) : String :=
  "\x7b\"text\": \"" ++ concatTexts segs ++ "\", \"segments\": [" ++
    segmentsJsonFrom 0 segs ++ "]\x7d"

/-- Java_expo_modules_whisper_WhisperContext_fullTranscribe
(whisper-jni.cpp lines 42-132): null context yields the empty JSON object,
a buffer shorter than 44 bytes yields the Invalid WAV error object (before any
engine call), a nonzero engine status yields the Transformation failed error
object, and otherwise the segment data is serialized to JSON. -/
def fullTranscribe (table : List String) (contextPtr : Int)
    (audioData : List Nat) (language : String) (translate : Bool)
    (maxTokens : Int) (suppressBlank suppressNst : Bool)
    (engine : EngineRun) : String :=
  if contextPtr = 0 then emptyObjectJson
  else
    match decodeWav audioData with
    | .invalidWav => invalidWavJson
    | .ok _samples =>
      let _params :=
        fullTranscribeParams table language translate maxTokens suppressBlank suppressNst
      if engine.status ≠ 0 then transformFailedJson
      else successJson engine.segments

/-- The structured result of nativeTranscribe: the "result" (full text) and
"segments" entries of the returned map. -/
structure TranscribeResult where
  result : String
  segments : List Segment
deriving Repr, DecidableEq

/-- A jobject return value of nativeTranscribe: nullptr or a result map. -/
inductive NativeResult where
  | nullResult
  | ok (r : TranscribeResult)
deriving Repr, DecidableEq

/-- The result loop of nativeTranscribe (lines 135-167): one pass over the
engine segments in index order, appending each text to the full text and each
segment map to the segments list. -/
def collectResults (segs : List Segment) : String × List Segment :=
  segs.foldl
    (fun acc s => (acc.1 ++ s.text, acc.2 ++ [{ text := s.text, t0 := s.t0, t1 := s.t1 }]))
    ("", [])

/-- nativeTranscribe (whisper_jni.cpp lines 55-187): null context returns
nullptr, a nonzero engine status returns nullptr, otherwise the result map is
assembled from the engine segments. -/
def nativeTranscribe (contextPtr : Int) (_audioData : List Rat)
    (language : Option String) (translate : Bool) (maxTokens : Int)
    (engine : EngineRun) : NativeResult :=
  if contextPtr = 0 then .nullResult
  else
    let _params := nativeTranscribeParams language translate maxTokens
    if engine.status ≠ 0 then .nullResult
    else
      let collected := collectResults engine.segments
      .ok { result := collected.1, segments := collected.2 }

/-! Resource events: the engine lifecycle calls an operation performs, in
order.  `contextFreed` stands for a `whisper_free` call, `stateCreated` for a
successful `whisper_init_state`, `stateFreed` for `whisper_state_free`. -/

/-- Observable engine resource events of one bridge call. -/
inductive ResEvent where
  | contextFreed
  | stateCreated
  | stateFreed
deriving Repr, DecidableEq

/-- Java_expo_modules_whisper_WhisperContext_freeContext
(whisper-jni.cpp lines 33-40): `whisper_free` is called only when the pointer
is non-null. -/
def freeContext (contextPtr : Int) : List ResEvent :=
  if contextPtr ≠ 0 then [.contextFreed] else []

/-- nativeFreeContext (whisper_jni.cpp lines 42-53): `whisper_free` is called
only when the pointer is non-null. -/
def nativeFreeContext (contextPtr : Int) : List ResEvent :=
  if contextPtr ≠ 0 then [.contextFreed] else []

/-! Language detection. -/

/-- Oracle for the engine calls nativeDetectLanguageWithState makes:
whether `whisper_init_state` succeeds, the `whisper_pcm_to_mel_with_state`
status, the `whisper_lang_auto_detect_with_state` result, and the
`whisper_lang_str` / `whisper_lang_str_full` lookups. -/
structure DetectOracle where
  stateOk : Bool
  melStatus : Int
  detectedLangId : Int
  langCode : Option String
  langName : Option String
deriving Repr, DecidableEq

/-- The entries of the map nativeDetectLanguageWithState returns. -/
structure LanguageDetectionResult where
  language : String
  languageName : String
  confidence : Rat
deriving Repr, DecidableEq

/-- nativeDetectLanguageWithState (whisper_jni.cpp lines 189-298): creates a
dedicated state, converts audio to a mel spectrogram, detects the language,
looks up code and name, and frees the state on every branch.  The returned
trace records the state creation and release events in order; the fixed 0.9
confidence is the source's placeholder value. -/
def nativeDetectLanguageWithState (contextPtr : Int) (_nThreads : Int)
    (o : DetectOracle) : Option LanguageDetectionResult × List ResEvent :=
  if contextPtr = 0 then (none, [])
  else if o.stateOk = false then (none, [])
  else if o.melStatus ≠ 0 then (none, [.stateCreated, .stateFreed])
  else if o.detectedLangId < 0 then (none, [.stateCreated, .stateFreed])
  else
    match o.langCode with
    | none => (none, [.stateCreated, .stateFreed])
    | some code =>
      let name := (o.langName).getD code
      (some { language := code, languageName := name, confidence := 9 / 10 },
        [.stateCreated, .stateFreed])

/-- nativeStartChunkedRealtimeTranscribeWithState (whisper_jni.cpp lines
300-374): null context returns false; a failed state allocation returns false;
otherwise the parameters are configured, the state is freed again (the chunk
loop is not driven here), and true is returned. -/
def nativeStartChunkedRealtimeTranscribeWithState (contextPtr : Int)
    (_samplesPerChunk : Int) (language : Option String) (translate : Bool)
    (maxTokens : Int) (_useVad : Bool) (audioContext : Int)
    (singleSegment noContext : Bool) (nThreads : Int) (stateOk : Bool) :
    Bool × List ResEvent :=
  if contextPtr = 0 then (false, [])
  else if stateOk = false then (false, [])
  else
    let _params :=
      startChunkedParams language translate maxTokens audioContext singleSegment noContext nThreads
    (true, [.stateCreated, .stateFreed])

/-! The owning host-bridge layer. -/

/-- The error taxonomy of spec §7. -/
inductive SpecError where
  | InvalidAudioFormat
  | EmptyAudio
  | ModelLoadFailed
  | InvalidHandle
  | UnsupportedLanguage
  | TranscriptionFailed (code : Int)
  | StateInitFailed
  | DetectionFailed
  | UnknownLanguage
  | SessionClosed
deriving Repr, DecidableEq

/-- Modelled from the spec: the owning host-bridge layer that wraps the raw
context pointer.  The Kotlin/Swift owner holding the consumed/closed flag is
not among the native sources; spec §4.3 prescribes "a consumed/closed flag
checked before release" and that "calling any other operation after close
fails with InvalidHandle". -/
structure OwnedContext where
  ptr : Int
  closed : Bool
deriving Repr, DecidableEq

/-- Modelled from the spec: close guarded by the consumed/closed flag — a
second close performs no engine release; the first close delegates to the
native freeContext binding. -/
def closeContext (c : OwnedContext) : OwnedContext × List ResEvent :=
  if c.closed then (c, [])
  else ({ c with closed := true }, nativeFreeContext c.ptr)

/-- Modelled from the spec: transcription through the owning layer checks the
closed flag first and fails with InvalidHandle on a closed handle. -/
def guardedTranscribe (c : OwnedContext) (audioData : List Rat)
    (language : Option String) (translate : Bool) (maxTokens : Int)
    (engine : EngineRun) : Except SpecError NativeResult :=
  if c.closed then .error .InvalidHandle
  else .ok (nativeTranscribe c.ptr audioData language translate maxTokens engine)

/-- Modelled from the spec: language detection through the owning layer checks
the closed flag first and fails with InvalidHandle on a closed handle. -/
def guardedDetectLanguage (c : OwnedContext) (nThreads : Int)
    (o : DetectOracle) :
    Except SpecError (Option LanguageDetectionResult × List ResEvent) :=
  if c.closed then .error .InvalidHandle
  else .ok (nativeDetectLanguageWithState c.ptr nThreads o)

/-- Modelled from the spec: streaming start through the owning layer checks
the closed flag first and fails with InvalidHandle on a closed handle. -/
def guardedStartStreaming (c : OwnedContext) (samplesPerChunk : Int)
    (language : Option String) (translate : Bool) (maxTokens : Int)
    (useVad : Bool) (audioContext : Int) (singleSegment noContext : Bool)
    (nThreads : Int) (stateOk : Bool) :
    Except SpecError (Bool × List ResEvent) :=
  if c.closed then .error .InvalidHandle
  else .ok (nativeStartChunkedRealtimeTranscribeWithState c.ptr samplesPerChunk
    language translate maxTokens useVad audioContext singleSegment noContext
    nThreads stateOk)

/-- Spec-side language resolution, following the claim's words: "auto" is the
detection sentinel, any other tag must be in the engine's supported-language
table, and an unsupported tag fails with UnsupportedLanguage. -/
def specResolveLanguage (table : List String) (tag : String) :
    Except SpecError String :=
  if tag = "auto" then .ok tag
  else if tag ∈ table then .ok tag
  else .error .UnsupportedLanguage

/-- Spec-side concatenation of segment texts in engine index order. -/
def textConcat : List Segment → String
  | [] => ""
  | s :: rest => s.text ++ textConcat rest

/-! Supporting lemmas. -/

/-- Induction principle that consumes a list two elements at a time, matching
the recursion pattern of `pcm16Samples`. -/
theorem pairRec {α : Type} {P : List α → Prop} (h0 : P []) (h1 : ∀ a, P [a])
    (h2 : ∀ a b l, P l → P (a :: b :: l)) : ∀ l, P l
  | [] => h0
  | [a] => h1 a
  | a :: b :: l => h2 a b l (pairRec h0 h1 h2 l)

theorem pcm16Samples_length (l : List Nat) :
    (pcm16Samples l).length = l.length / 2 := by
  induction l using pairRec with
  | h0 => rfl
  | h1 a => simp [pcm16Samples]
  | h2 a b l ih => simp [pcm16Samples, ih]; omega

theorem pcm16Samples_getD (l : List Nat) (i : Nat)
    (h : i < (pcm16Samples l).length) :
    (pcm16Samples l).getD i 0 =
      int16OfBytes (l.getD (2 * i) 0) (l.getD (2 * i + 1) 0) := by
  induction l using pairRec generalizing i with
  | h0 => simp [pcm16Samples] at h
  | h1 a => simp [pcm16Samples] at h
  | h2 a b l ih =>
    match i with
    | 0 => rfl
    | Nat.succ j =>
      have h' : j < (pcm16Samples l).length := by
        simpa [pcm16Samples] using h
      have e1 : 2 * (j + 1) = 2 * j + 1 + 1 := by omega
      rw [e1]
      simp only [pcm16Samples, List.getD_cons_succ]
      exact ih j h'

theorem int16OfBytes_bounds (lo hi : Nat) :
    -32768 ≤ int16OfBytes lo hi ∧ int16OfBytes lo hi ≤ 32767 := by
  have h1 : lo % 256 < 256 := Nat.mod_lt _ (by norm_num)
  have h2 : hi % 256 < 256 := Nat.mod_lt _ (by norm_num)
  simp only [int16OfBytes]
  split <;> omega

theorem pcm16Samples_mem_bounds (l : List Nat) (v : Int)
    (hv : v ∈ pcm16Samples l) : -32768 ≤ v ∧ v ≤ 32767 := by
  induction l using pairRec with
  | h0 => simp [pcm16Samples] at hv
  | h1 a => simp [pcm16Samples] at hv
  | h2 a b l ih =>
    simp only [pcm16Samples, List.mem_cons] at hv
    rcases hv with h | h
    · subst h; exact int16OfBytes_bounds a b
    · exact ih h

theorem normalizeSample_bounds (v : Int) (h1 : -32768 ≤ v) (h2 : v ≤ 32767) :
    -1 ≤ normalizeSample v ∧ normalizeSample v ≤ 1 := by
  unfold normalizeSample
  have hc : (0 : ℚ) < 32768 := by norm_num
  have hv1 : (-32768 : ℚ) ≤ (v : ℚ) := by exact_mod_cast h1
  have hv2 : (v : ℚ) ≤ 32767 := by exact_mod_cast h2
  constructor
  · rw [le_div_iff₀ hc]
    linarith
  · rw [div_le_one hc]
    linarith

theorem collectResults_go (segs : List Segment) (a : String) (l : List Segment) :
    segs.foldl
      (fun acc s => (acc.1 ++ s.text, acc.2 ++ [{ text := s.text, t0 := s.t0, t1 := s.t1 }]))
      (a, l) = (a ++ textConcat segs, l ++ segs) := by
  induction segs generalizing a l with
  | nil => simp [textConcat]
  | cons s rest ih =>
    simp only [List.foldl_cons, textConcat]
    rw [ih]
    simp [String.append_assoc]

theorem collectResults_eq (segs : List Segment) :
    collectResults segs = (textConcat segs, segs) := by
  unfold collectResults
  rw [collectResults_go]
  simp [String.append_empty]

theorem concatTexts_go (segs : List Segment) (a : String) :
    segs.foldl (fun acc s => acc ++ s.text) a = a ++ textConcat segs := by
  induction segs generalizing a with
  | nil => simp [textConcat]
  | cons s rest ih =>
    simp only [List.foldl_cons, textConcat]
    rw [ih, String.append_assoc]

theorem concatTexts_eq (segs : List Segment) :
    concatTexts segs = textConcat segs := by
  unfold concatTexts
  rw [concatTexts_go]
  simp

theorem getD_map_normalize (l : List Int) (i : Nat) (h : i < l.length) :
    (l.map normalizeSample).getD i 0 = normalizeSample (l.getD i 0) := by
  induction l generalizing i with
  | nil => simp at h
  | cons v rest ih =>
    match i with
    | 0 => rfl
    | Nat.succ j =>
      simp only [List.map_cons, List.getD_cons_succ]
      exact ih j (by simpa using h)

/-! Claim theorems. -/

/-- C1: for every WAV-tagged byte buffer of length L ≥ 44 with (L − 44) even,
the decoding performed inside fullTranscribe yields exactly (L − 44) / 2
samples, each equal to the corresponding little-endian int16 value divided by
32768, and therefore lying in [-1, 1]. -/
theorem wav_decode_correct (bytes : List Nat) (hlen : 44 ≤ bytes.length)
    (_heven : (bytes.length - 44) % 2 = 0) :
    ∃ samples, decodeWav bytes = .ok samples ∧
      samples.length = (bytes.length - 44) / 2 ∧
      (∀ i, i < samples.length →
        samples.getD i 0 =
          (int16OfBytes ((bytes.drop 44).getD (2 * i) 0)
            ((bytes.drop 44).getD (2 * i + 1) 0) : Rat) / 32768) ∧
      ∀ r ∈ samples, -1 ≤ r ∧ r ≤ 1 := by
  refine ⟨(pcm16Samples (bytes.drop 44)).map normalizeSample, ?_, ?_, ?_, ?_⟩
  · unfold decodeWav
    rw [if_neg (by omega)]
  · rw [List.length_map, pcm16Samples_length, List.length_drop]
  · intro i hi
    rw [List.length_map] at hi
    rw [getD_map_normalize _ _ hi, pcm16Samples_getD _ _ hi]
    rfl
  · intro r hr
    rw [List.mem_map] at hr
    obtain ⟨v, hv, rfl⟩ := hr
    obtain ⟨b1, b2⟩ := pcm16Samples_mem_bounds _ v hv
    exact normalizeSample_bounds v b1 b2

/-- Witness for wav_decode_correct: the concrete 46-byte buffer whose single
sample is the most negative int16 value 0x8000, decoding to exactly -1. -/
theorem wav_decode_correct_witness :
    ∃ samples, decodeWav (List.replicate 44 0 ++ [0, 128]) = .ok samples ∧
      samples.length = ((List.replicate 44 0 ++ [0, 128] : List Nat).length - 44) / 2 ∧
      (∀ i, i < samples.length →
        samples.getD i 0 =
          (int16OfBytes (((List.replicate 44 0 ++ [0, 128] : List Nat).drop 44).getD (2 * i) 0)
            (((List.replicate 44 0 ++ [0, 128] : List Nat).drop 44).getD (2 * i + 1) 0) : Rat) / 32768) ∧
      ∀ r ∈ samples, -1 ≤ r ∧ r ≤ 1 :=
  wav_decode_correct (List.replicate 44 0 ++ [0, 128]) (by decide) (by decide)

/-- C2: for every successful transcribe call, the returned full-text field is
the concatenation, in engine index order, of the engine-reported segments'
texts, and the returned segment sequence is exactly the engine's sequence —
no reordering, merging or dropping, empty-text segments included; the JSON
binding's text field is the same index-order concatenation. -/
theorem transcribe_preserves_segments (contextPtr : Int) (audioData : List Rat)
    (language : Option String) (translate : Bool) (maxTokens : Int)
    (engine : EngineRun) (hctx : contextPtr ≠ 0) (hok : engine.status = 0) :
    nativeTranscribe contextPtr audioData language translate maxTokens engine =
      .ok { result := textConcat engine.segments, segments := engine.segments } ∧
    concatTexts engine.segments = textConcat engine.segments := by
  constructor
  · simp only [nativeTranscribe, if_neg hctx, hok, ne_eq, not_true_eq_false,
      if_false, ite_false, collectResults_eq]
  · exact concatTexts_eq _

/-- Witness for transcribe_preserves_segments: a successful call with two
engine segments, the first with empty text; the empty-text segment is kept
and the full text is the in-order concatenation. -/
theorem transcribe_preserves_segments_witness :
    nativeTranscribe 1 [] (some "en") false 0
        { status := 0,
          segments := [{ text := "", t0 := 0, t1 := 1 }, { text := "hi", t0 := 1, t1 := 2 }] } =
      .ok { result := "hi",
            segments := [{ text := "", t0 := 0, t1 := 1 }, { text := "hi", t0 := 1, t1 := 2 }] } := by
  have h := transcribe_preserves_segments 1 [] (some "en") false 0
    { status := 0,
      segments := [{ text := "", t0 := 0, t1 := 1 }, { text := "hi", t0 := 1, t1 := 2 }] }
    (by decide) rfl
  rw [h.1]
  decide

theorem closeContext_closed (c : OwnedContext) : (closeContext c).1.closed = true := by
  unfold closeContext
  cases hc : c.closed <;> simp [hc]

theorem nativeTranscribe_null_iff (contextPtr : Int) (audioData : List Rat)
    (language : Option String) (translate : Bool) (maxTokens : Int)
    (engine : EngineRun) :
    nativeTranscribe contextPtr audioData language translate maxTokens engine = .nullResult
      ↔ contextPtr = 0 ∨ engine.status ≠ 0 := by
  simp only [nativeTranscribe]
  split_ifs with h1 h2
  · simp [h1]
  · simp [h1, h2]
  · simp [h1, h2]

theorem detect_none_of_failure (contextPtr nThreads : Int) (o : DetectOracle)
    (hfail : o.stateOk = false ∨ o.melStatus ≠ 0 ∨ o.detectedLangId < 0 ∨
      o.langCode = none) :
    (nativeDetectLanguageWithState contextPtr nThreads o).1 = none := by
  simp only [nativeDetectLanguageWithState]
  split_ifs with h1 h2 h3 h4
  · rfl
  · rfl
  · rfl
  · rfl
  · rcases hfail with h | h | h | h
    · exact absurd h h2
    · exact absurd h h3
    · exact absurd h h4
    · simp [h]

theorem startChunked_false_iff (contextPtr samplesPerChunk : Int)
    (language : Option String) (translate : Bool) (maxTokens : Int)
    (useVad : Bool) (audioContext : Int) (singleSegment noContext : Bool)
    (nThreads : Int) (stateOk : Bool) :
    (nativeStartChunkedRealtimeTranscribeWithState contextPtr samplesPerChunk
      language translate maxTokens useVad audioContext singleSegment noContext
      nThreads stateOk).1 = false ↔ contextPtr = 0 ∨ stateOk = false := by
  simp only [nativeStartChunkedRealtimeTranscribeWithState]
  split_ifs with h1 h2
  · simp [h1]
  · simp [h1, h2]
  · simp [h1, h2]

/-- C3: after the owning layer closes a handle, every subsequent operation on
that handle (transcribe, language detection, streaming start) fails with
InvalidHandle — the operations are total functions, so no crash is possible —
and a second close performs no engine release because the consumed/closed flag
is checked before release. -/
theorem closed_handle_ops_fail (c : OwnedContext) (audioData : List Rat)
    (language : Option String) (translate : Bool) (maxTokens : Int)
    (engine : EngineRun) (nThreads : Int) (o : DetectOracle)
    (samplesPerChunk : Int) (useVad : Bool) (audioContext : Int)
    (singleSegment noContext : Bool) (stateOk : Bool) :
    guardedTranscribe (closeContext c).1 audioData language translate maxTokens engine
      = .error .InvalidHandle ∧
    guardedDetectLanguage (closeContext c).1 nThreads o = .error .InvalidHandle ∧
    guardedStartStreaming (closeContext c).1 samplesPerChunk language translate
      maxTokens useVad audioContext singleSegment noContext nThreads stateOk
      = .error .InvalidHandle ∧
    (closeContext (closeContext c).1).2 = [] := by
  have hclosed := closeContext_closed c
  refine ⟨?_, ?_, ?_, ?_⟩
  · simp [guardedTranscribe, hclosed]
  · simp [guardedDetectLanguage, hclosed]
  · simp [guardedStartStreaming, hclosed]
  · have h4 : ∀ d : OwnedContext, d.closed = true → (closeContext d).2 = [] := by
      intro d h
      simp [closeContext, h]
    exact h4 _ hclosed

/-- C10: calling freeContext with the null handle 0 is a no-op in both
bindings: no engine release call is performed. -/
theorem freeContext_null_noop : freeContext 0 = [] ∧ nativeFreeContext 0 = [] := by
  decide

/-- C7: nativeDetectLanguageWithState balances state creation and release on
every exit path — in the resource trace of every call, with any combination of
engine outcomes, the number of stateCreated events equals the number of
stateFreed events, so no call returns while holding the state it allocated. -/
theorem detect_frees_state (contextPtr nThreads : Int) (o : DetectOracle) :
    ((nativeDetectLanguageWithState contextPtr nThreads o).2).count ResEvent.stateCreated =
    ((nativeDetectLanguageWithState contextPtr nThreads o).2).count ResEvent.stateFreed := by
  simp only [nativeDetectLanguageWithState]
  split_ifs <;> first
    | rfl
    | (rcases h : o.langCode with _ | code <;> simp [h])

/-- C9: nativeStartChunkedRealtimeTranscribeWithState balances state creation
and release on every path, and on the success path that returns true the whole
resource trace is the created-then-freed pair, so no engine state survives the
call. -/
theorem startChunked_frees_state (contextPtr samplesPerChunk : Int)
    (language : Option String) (translate : Bool) (maxTokens : Int)
    (useVad : Bool) (audioContext : Int) (singleSegment noContext : Bool)
    (nThreads : Int) (stateOk : Bool) :
    ((nativeStartChunkedRealtimeTranscribeWithState contextPtr samplesPerChunk
        language translate maxTokens useVad audioContext singleSegment noContext
        nThreads stateOk).2).count ResEvent.stateCreated =
    ((nativeStartChunkedRealtimeTranscribeWithState contextPtr samplesPerChunk
        language translate maxTokens useVad audioContext singleSegment noContext
        nThreads stateOk).2).count ResEvent.stateFreed ∧
    ((nativeStartChunkedRealtimeTranscribeWithState contextPtr samplesPerChunk
        language translate maxTokens useVad audioContext singleSegment noContext
        nThreads stateOk).1 = true →
      (nativeStartChunkedRealtimeTranscribeWithState contextPtr samplesPerChunk
        language translate maxTokens useVad audioContext singleSegment noContext
        nThreads stateOk).2 = [ResEvent.stateCreated, ResEvent.stateFreed]) := by
  simp only [nativeStartChunkedRealtimeTranscribeWithState]
  split_ifs <;> simp

/-- Witness for startChunked_frees_state: a concrete successful start call
whose trace is exactly the created-then-freed pair. -/
theorem startChunked_frees_state_witness :
    (nativeStartChunkedRealtimeTranscribeWithState 1 512 (some "en") false 0
      false 512 true false 4 true).2 = [ResEvent.stateCreated, ResEvent.stateFreed] :=
  (startChunked_frees_state 1 512 (some "en") false 0 false 512 true false 4 true).2
    (by decide)

/-- C8: the engine default token cap is the unlimited sentinel 0, and in all
three call sites (JSON single-shot binding, structured single-shot binding,
streaming-start binding) a maxTokens value of at most 0 leaves the cap at that
unlimited default while a positive maxTokens sets the cap to exactly that
value — the same interpretation at every site. -/
theorem maxTokens_consistent (maxTokens : Int) (table : List String)
    (language : String) (langOpt : Option String) (translate : Bool)
    (suppressBlank suppressNst : Bool) (audioContext : Int)
    (singleSegment noContext : Bool) (nThreads : Int) :
    whisper_full_default_params.max_tokens = 0 ∧
    (maxTokens ≤ 0 →
      (fullTranscribeParams table language translate maxTokens suppressBlank
        suppressNst).max_tokens = 0 ∧
      (nativeTranscribeParams langOpt translate maxTokens).max_tokens = 0 ∧
      (startChunkedParams langOpt translate maxTokens audioContext singleSegment
        noContext nThreads).max_tokens = 0) ∧
    (0 < maxTokens →
      (fullTranscribeParams table language translate maxTokens suppressBlank
        suppressNst).max_tokens = maxTokens ∧
      (nativeTranscribeParams langOpt translate maxTokens).max_tokens = maxTokens ∧
      (startChunkedParams langOpt translate maxTokens audioContext singleSegment
        noContext nThreads).max_tokens = maxTokens) := by
  refine ⟨rfl, fun h => ⟨?_, ?_, ?_⟩, fun h => ⟨?_, ?_, ?_⟩⟩ <;>
    simp only [fullTranscribeParams, nativeTranscribeParams, startChunkedParams] <;>
    cases langOpt <;>
    split_ifs <;>
    first | rfl | omega

/-- Witness for maxTokens_consistent: maxTokens 0 leaves the cap at the
unlimited default 0 in all three sites and maxTokens 5 sets the cap to 5. -/
theorem maxTokens_consistent_witness :
    ((fullTranscribeParams ["en"] "en" false 0 false false).max_tokens = 0 ∧
      (nativeTranscribeParams (some "en") false 0).max_tokens = 0 ∧
      (startChunkedParams (some "en") false 0 512 false false 4).max_tokens = 0) ∧
    ((fullTranscribeParams ["en"] "en" false 5 false false).max_tokens = 5 ∧
      (nativeTranscribeParams (some "en") false 5).max_tokens = 5 ∧
      (startChunkedParams (some "en") false 5 512 false false 4).max_tokens = 5) :=
  ⟨(maxTokens_consistent 0 ["en"] "en" (some "en") false false false 512 false
      false 4).2.1 (by decide),
    (maxTokens_consistent 5 ["en"] "en" (some "en") false false false 512 false
      false 4).2.2 (by decide)⟩

/-- C4 counterexample: the null-context failure path of the JSON binding
returns the bare empty JSON object, which is neither of the error-keyed
outputs the host could branch on, nor the success output — a failure path
yielding a silently empty success-shaped value. -/
theorem null_context_empty_object :
    fullTranscribe ["en"] 0 [] "auto" false 0 false false
        { status := 0, segments := [] } = emptyObjectJson ∧
    ¬ isStructuredError emptyObjectJson ∧
    emptyObjectJson ≠ successJson [] := by
  decide

/-- C4 amended: with the exception of the JSON binding's null-context path,
every failure path returns a value the host can branch on: the JSON binding
returns one of its two error-keyed JSON objects, the structured binding
returns the null result, language detection returns the null map, and
streaming start returns false; the null-context path of the JSON binding
returns the empty JSON object instead of a structured error. -/
theorem failure_paths_branchable (table : List String) (contextPtr : Int)
    (audioData : List Nat) (language : String) (translate : Bool)
    (maxTokens : Int) (suppressBlank suppressNst : Bool) (floatData : List Rat)
    (langOpt : Option String) (engine : EngineRun) (nThreads : Int)
    (o : DetectOracle) (samplesPerChunk : Int) (useVad : Bool)
    (audioContext : Int) (singleSegment noContext : Bool) (stateOk : Bool) :
    (contextPtr ≠ 0 → audioData.length < 44 ∨ engine.status ≠ 0 →
      isStructuredError
        (fullTranscribe table contextPtr audioData language translate maxTokens
          suppressBlank suppressNst engine)) ∧
    (contextPtr = 0 ∨ engine.status ≠ 0 →
      nativeTranscribe contextPtr floatData langOpt translate maxTokens engine
        = .nullResult) ∧
    (o.stateOk = false ∨ o.melStatus ≠ 0 ∨ o.detectedLangId < 0 ∨
        o.langCode = none →
      (nativeDetectLanguageWithState contextPtr nThreads o).1 = none) ∧
    (contextPtr = 0 ∨ stateOk = false →
      (nativeStartChunkedRealtimeTranscribeWithState contextPtr samplesPerChunk
        langOpt translate maxTokens useVad audioContext singleSegment noContext
        nThreads stateOk).1 = false) ∧
    fullTranscribe table 0 audioData language translate maxTokens suppressBlank
      suppressNst engine = emptyObjectJson := by
  refine ⟨?_, ?_, ?_, ?_, ?_⟩
  · intro hctx hfail
    simp only [fullTranscribe, decodeWav, if_neg hctx]
    by_cases hlen : audioData.length < 44
    · simp [hlen, isStructuredError]
    · have hst : engine.status ≠ 0 := by tauto
      simp [hlen, hst, isStructuredError]
  · intro hfail
    exact (nativeTranscribe_null_iff contextPtr floatData langOpt translate
      maxTokens engine).mpr hfail
  · exact detect_none_of_failure contextPtr nThreads o
  · intro hfail
    exact (startChunked_false_iff contextPtr samplesPerChunk langOpt translate
      maxTokens useVad audioContext singleSegment noContext nThreads
      stateOk).mpr hfail
  · simp [fullTranscribe]

/-- Witness for failure_paths_branchable: concrete failing calls — a too-short
buffer in the JSON binding yields an error-keyed object, a null context in the
structured binding yields the null result, a failed state allocation in
detection yields the null map, and a null context in streaming start yields
false. -/
theorem failure_paths_branchable_witness :
    isStructuredError
      (fullTranscribe ["en"] 1 [] "auto" false 0 false false
        { status := 0, segments := [] }) ∧
    nativeTranscribe 0 [] none false 0 { status := 0, segments := [] }
      = .nullResult ∧
    (nativeDetectLanguageWithState 1 4
      { stateOk := false, melStatus := 0, detectedLangId := 0,
        langCode := none, langName := none }).1 = none ∧
    (nativeStartChunkedRealtimeTranscribeWithState 0 512 none false 0 false 512
      false false 4 true).1 = false := by
  have h1 := failure_paths_branchable ["en"] 1 [] "auto" false 0 false false []
    none { status := 0, segments := [] } 4
    { stateOk := false, melStatus := 0, detectedLangId := 0, langCode := none,
      langName := none } 512 false 512 false false true
  have h2 := failure_paths_branchable ["en"] 0 [] "auto" false 0 false false []
    none { status := 0, segments := [] } 4
    { stateOk := false, melStatus := 0, detectedLangId := 0, langCode := none,
      langName := none } 512 false 512 false false true
  exact ⟨h1.1 (by decide) (Or.inl (by decide)), h2.2.1 (Or.inl rfl),
    h1.2.2.1 (Or.inl rfl), h2.2.2.2.1 (Or.inl rfl)⟩

/-- C5 counterexample: the 45-byte buffer — odd one-byte remainder after the
header and zero resulting samples — is not rejected: decoding succeeds with an
empty sample list, and fullTranscribe proceeds to the engine call, returning
the engine-derived success output rather than any validation error. -/
theorem odd_empty_buffer_not_rejected :
    decodeWav (List.replicate 45 0) = .ok [] ∧
    fullTranscribe ["en"] 1 (List.replicate 45 0) "auto" false 0 false false
        { status := 0, segments := [{ text := "ok", t0 := 0, t1 := 1 }] } =
      successJson [{ text := "ok", t0 := 0, t1 := 1 }] ∧
    ¬ isStructuredError
        (fullTranscribe ["en"] 1 (List.replicate 45 0) "auto" false 0 false
          false { status := 0, segments := [{ text := "ok", t0 := 0, t1 := 1 }] }) := by
  decide

/-- C5 amended: decoding fails with the Invalid WAV error exactly for buffers
shorter than 44 bytes, and that validation error is produced before any engine
call (the output is the error object no matter what the engine oracle would
answer); an odd-length remainder is not rejected (the trailing byte is
dropped) and zero resulting samples are not rejected either. -/
theorem short_buffer_fails_fast (bytes : List Nat) (table : List String)
    (language : String) (translate : Bool) (maxTokens : Int)
    (suppressBlank suppressNst : Bool) (contextPtr : Int) (e1 e2 : EngineRun) :
    (decodeWav bytes = .invalidWav ↔ bytes.length < 44) ∧
    (contextPtr ≠ 0 → bytes.length < 44 →
      fullTranscribe table contextPtr bytes language translate maxTokens
        suppressBlank suppressNst e1 = invalidWavJson ∧
      fullTranscribe table contextPtr bytes language translate maxTokens
        suppressBlank suppressNst e1 =
      fullTranscribe table contextPtr bytes language translate maxTokens
        suppressBlank suppressNst e2) := by
  have hdec : ∀ b : List Nat, decodeWav b = .invalidWav ↔ b.length < 44 := by
    intro b
    unfold decodeWav
    split_ifs with h <;> simp [h]
  refine ⟨hdec bytes, fun hctx hlen => ?_⟩
  have hwav : decodeWav bytes = .invalidWav := (hdec bytes).mpr hlen
  have h1 : ∀ e : EngineRun, fullTranscribe table contextPtr bytes language
      translate maxTokens suppressBlank suppressNst e = invalidWavJson := by
    intro e
    simp only [fullTranscribe, if_neg hctx, hwav]
  exact ⟨h1 e1, (h1 e1).trans (h1 e2).symm⟩

/-- Witness for short_buffer_fails_fast: the empty buffer is rejected with the
Invalid WAV error, and the output is the same under two different engine
oracles — the error is produced before the engine runs. -/
theorem short_buffer_fails_fast_witness :
    fullTranscribe ["en"] 1 [] "auto" false 0 false false
        { status := 0, segments := [] } = invalidWavJson ∧
    fullTranscribe ["en"] 1 [] "auto" false 0 false false
        { status := 0, segments := [] } =
      fullTranscribe ["en"] 1 [] "auto" false 0 false false
        { status := 7, segments := [] } :=
  (short_buffer_fails_fast [] ["en"] "auto" false 0 false false 1
    { status := 0, segments := [] } { status := 7, segments := [] }).2
    (by decide) (by decide)

/-- C6 counterexample: with supported-language table ["en"], the unsupported
tag "zz" must fail with UnsupportedLanguage under the spec-side resolution,
but the code never validates: the structured binding stores the tag verbatim
in the engine parameters, the JSON binding stores the unchecked id -1, and the
transcription call proceeds and succeeds. -/
theorem unsupported_language_not_rejected :
    specResolveLanguage ["en"] "zz" = .error .UnsupportedLanguage ∧
    whisper_lang_id ["en"] "zz" = -1 ∧
    (fullTranscribeParams ["en"] "zz" false 0 false false).language
      = .langId (-1) ∧
    (nativeTranscribeParams (some "zz") false 0).language = .tag "zz" ∧
    nativeTranscribe 1 [] (some "zz") false 0 { status := 0, segments := [] }
      = .ok { result := "", segments := [] } := by
  refine ⟨rfl, by decide, by decide, by decide, by decide⟩

/-- C6 amended: the language tag is never validated against any table: the
structured binding stores whatever tag it is given verbatim in the engine
parameters, the JSON binding stores the numeric id of any non-"auto" tag
without checking the unknown sentinel -1, and the call outcome is independent
of the tag — transcription fails exactly on a null context or a nonzero engine
status, never with UnsupportedLanguage. -/
theorem language_passed_through (table : List String) (lang : String)
    (langOpt : Option String) (translate : Bool) (maxTokens : Int)
    (suppressBlank suppressNst : Bool) (contextPtr : Int)
    (audioData : List Rat) (engine : EngineRun) :
    (nativeTranscribeParams (some lang) translate maxTokens).language
      = .tag lang ∧
    (lang ≠ "auto" →
      (fullTranscribeParams table lang translate maxTokens suppressBlank
        suppressNst).language = .langId (whisper_lang_id table lang)) ∧
    (nativeTranscribe contextPtr audioData langOpt translate maxTokens engine
      = .nullResult ↔ contextPtr = 0 ∨ engine.status ≠ 0) := by
  constructor
  · simp only [nativeTranscribeParams]
  constructor
  · intro hne
    simp only [fullTranscribeParams, if_pos hne]
  · exact nativeTranscribe_null_iff contextPtr audioData langOpt translate
      maxTokens engine

/-- Witness for language_passed_through: the unsupported tag "zz" is stored
verbatim by the structured binding and as the unchecked id -1 by the JSON
binding. -/
theorem language_passed_through_witness :
    (fullTranscribeParams ["en"] "zz" true 3 true true).language
      = .langId (whisper_lang_id ["en"] "zz") ∧
    (nativeTranscribeParams (some "zz") true 3).language = .tag "zz" :=
  ⟨(language_passed_through ["en"] "zz" (some "zz") true 3 true true 1 []
      { status := 0, segments := [] }).2.1 (by decide),
    (language_passed_through ["en"] "zz" (some "zz") true 3 true true 1 []
      { status := 0, segments := [] }).1⟩

end ExpoWhisper
